import Mathlib

/-!
Verification of the approval-policy compiler and reconciler of the
launchdarkly-project-api-template repository.

The Python sources (src/ld_project_setup.py and
src/update_workflow_approvals.py) build JSON documents (Python dicts),
compile JSON-patch operation lists against live environment state, and
drive batch loops over projects and environments.  This development
embeds those parts shallowly:

  * Python dicts / JSON values are modelled by the inductive type JVal;
    dict lookup with default (d.get(k, v)), key membership (k in d) and
    assignment (d[k] = v) are modelled by JVal.get, JVal.getD,
    JVal.hasKey and JVal.set.
  * Python truthiness (if x:) is modelled by JVal.truthy, and str.lower
    by pyLower (character-wise lowercasing; the identifiers handled by
    the scripts are ASCII keys).
  * The network is an oracle: functions that read remote state take the
    fetched documents as explicit arguments, and functions that write
    return the request payloads and patch-operation lists they would
    transmit.  Side-effect sequences relevant to verification-after-write
    are reified as lists of Step values.
  * Python exceptions are modelled by Except; a try/except handler is a
    match on the Except value.

Each definition carries a comment naming the source function and lines
it is translated from.
-/

/-- JSON values, the shape of every document the scripts build or read. -/
inductive JVal where
  | jnull
  | jbool (b : Bool)
  | jint (n : Int)
  | jstr (s : String)
  | jarr (xs : List JVal)
  | jobj (fields : List (String × JVal))

mutual

/-- Structural equality of JSON values (Python ==). -/
def JVal.beq : JVal → JVal → Bool
  | .jnull, .jnull => true
  | .jbool a, .jbool b => a == b
  | .jint a, .jint b => a == b
  | .jstr a, .jstr b => a == b
  | .jarr xs, .jarr ys => JVal.beqList xs ys
  | .jobj xs, .jobj ys => JVal.beqFields xs ys
  | _, _ => false

/-- Element-wise equality of JSON arrays. -/
def JVal.beqList : List JVal → List JVal → Bool
  | [], [] => true
  | x :: xs, y :: ys => JVal.beq x y && JVal.beqList xs ys
  | _, _ => false

/-- Field-wise equality of JSON objects. -/
def JVal.beqFields : List (String × JVal) → List (String × JVal) → Bool
  | [], [] => true
  | (k, x) :: xs, (l, y) :: ys => k == l && JVal.beq x y && JVal.beqFields xs ys
  | _, _ => false

end

/-- Dict lookup: d.get(k) (None when the key is absent). -/
def JVal.get : JVal → String → Option JVal
  | .jobj fs, k => fs.lookup k
  | _, _ => none

/-- Dict lookup with default: d.get(k, dflt). -/
def JVal.getD (v : JVal) (k : String) (dflt : JVal) : JVal :=
  (v.get k).getD dflt

/-- Key membership: k in d. -/
def JVal.hasKey (v : JVal) (k : String) : Bool :=
  (v.get k).isSome

/-- Replace the value of key k, or append the binding when k is new
(Python dict assignment d[k] = v keeps the position of an existing key). -/
def setField (fs : List (String × JVal)) (k : String) (v : JVal) :
    List (String × JVal) :=
  match fs with
  | [] => [(k, v)]
  | (k1, v1) :: rest =>
      if k1 == k then (k, v) :: rest else (k1, v1) :: setField rest k v

/-- Dict assignment d[k] = v (identity on non-objects). -/
def JVal.set : JVal → String → JVal → JVal
  | .jobj fs, k, v => .jobj (setField fs k v)
  | other, _, _ => other

/-- d.update({...}): assign each binding in order. -/
def JVal.updateWith : JVal → List (String × JVal) → JVal
  | v, [] => v
  | v, (k, x) :: rest => (v.set k x).updateWith rest

/-- Python truthiness of a JSON value (if x:). -/
def JVal.truthy : JVal → Bool
  | .jnull => false
  | .jbool b => b
  | .jint n => n != 0
  | .jstr s => s != ""
  | .jarr xs => !xs.isEmpty
  | .jobj fs => !fs.isEmpty

/-- Python x == "lit" for a JSON value x (False on any non-string). -/
def JVal.isStr (v : JVal) (s : String) : Bool :=
  match v with
  | .jstr t => t == s
  | _ => false

/-- Python d.get(k) == "lit": the lookup may be None. -/
def optIsStr (v : Option JVal) (s : String) : Bool :=
  match v with
  | some x => x.isStr s
  | none => false

/-- Python == between two possibly-None JSON values. -/
def pyEqOpt (a b : Option JVal) : Bool :=
  match a, b with
  | none, none => true
  | some x, some y => JVal.beq x y
  | _, _ => false

/-- Integer read with default: d.get(k, n) where the stored value is an int. -/
def JVal.getIntD (v : JVal) (k : String) (dflt : Int) : Int :=
  match v.get k with
  | some (.jint n) => n
  | _ => dflt

/-- Python str.lower(), character-wise (the scripts handle ASCII keys). -/
def pyLower (s : String) : String :=
  ⟨s.data.map Char.toLower⟩

/-- Python "if not x" on an optional environment-variable string: true when
the variable is unset or empty. -/
def pyFalsyStr : Option String → Bool
  | none => true
  | some s => s == ""

/-- One JSON-patch operation {op, path, value}, as transmitted in the body of
a PATCH request. -/
structure PatchOp where
  op : String
  path : String
  value : JVal

/-- Value of the first patch operation addressing a given path. -/
def opValueAt (ops : List PatchOp) (p : String) : Option JVal :=
  (ops.find? (fun o => o.path == p)).map (fun o => o.value)

/-! ## Resource Client URL construction

ld_project_setup.py lowercases project and environment keys before
building request URLs (get_project line 133, list_environments line 149,
get_environment lines 159-161, delete_environment lines 169-172,
remove_approval_settings lines 857-860, update_environment lines 962-965,
create_environment lines 746-748 and 848).
update_workflow_approvals.py builds the same URLs without lowercasing
(get_environment line 139, list_environments line 147,
update_environment_approvals line 155). -/

/-- The remote API base URL (both scripts, BASE_URL). -/
def BASE_URL : String := "https://app.launchdarkly.com/api/v2"

/-- URL of a project resource, ld_project_setup.get_project lines 132-134. -/
def projectUrl (projectKey : String) : String :=
  BASE_URL ++ "/projects/" ++ pyLower projectKey

/-- URL of the environment collection of a project, ld_project_setup
list_environments lines 148-150 and create_environment line 848. -/
def environmentsUrl (projectKey : String) : String :=
  BASE_URL ++ "/projects/" ++ pyLower projectKey ++ "/environments"

/-- URL of one environment, ld_project_setup.get_environment lines 158-161
(the same formula is built by delete_environment, update_environment and
remove_approval_settings after lowercasing both keys). -/
def environmentUrl (projectKey envKey : String) : String :=
  BASE_URL ++ "/projects/" ++ pyLower projectKey ++ "/environments/" ++ pyLower envKey

/-- URL of one environment as built by update_workflow_approvals
(get_environment line 139, update_environment_approvals line 155): the keys
are used exactly as supplied, with no lowercasing. -/
def uwaEnvironmentUrl (projectKey envKey : String) : String :=
  BASE_URL ++ "/projects/" ++ projectKey ++ "/environments/" ++ envKey

/-! ## Patch compilation in ld_project_setup.update_environment -/

/-- update_environment lines 976-978: only the alias "service-now" is
rewritten to "servicenow"; every other value of service_kind is left
unchanged. -/
def updateNormalizeServiceKind (s : JVal) : JVal :=
  if optIsStr (s.get "service_kind") "service-now" then
    s.set "service_kind" (.jstr "servicenow")
  else s

/-- update_environment lines 975-1092: the JSON-patch operation list built
from the (snake_case) approval-settings intent and the fetched live
environment document.  Translated branch for branch; the live state decides
only whether flagsApprovalSettings is included and, in the servicenow
branch, whether an existing segment document is patched. -/
def updateEnvironmentPatchOps (approvalSettings0 currentEnv : JVal) : List PatchOp :=
  if approvalSettings0.truthy then
    let s := updateNormalizeServiceKind approvalSettings0
    let api := JVal.jobj [
      ("required", s.getD "required" (.jbool true)),
      ("bypassApprovalsForPendingChanges", s.getD "bypass_approvals_for_pending_changes" (.jbool false)),
      ("minNumApprovals", .jint (max 1 (s.getIntD "min_num_approvals" 1))),
      ("canReviewOwnRequest", s.getD "can_review_own_request" (.jbool false)),
      ("canApplyDeclinedChanges", s.getD "can_apply_declined_changes" (.jbool false)),
      ("autoApplyApprovedChanges", s.getD "auto_apply_approved_changes" (.jbool false)),
      ("serviceKind", s.getD "service_kind" (.jstr "launchdarkly")),
      ("serviceConfig", s.getD "service_config" (.jobj [])),
      ("requiredApprovalTags", s.getD "required_approval_tags" (.jarr []))]
    if optIsStr (api.get "serviceKind") "launchdarkly" then
      let flags := s.getD "flags_approval_settings" (.jobj [])
      let segs := s.getD "segments_approval_settings" (.jobj [])
      let api :=
        if (flags.getD "required" (.jbool false)).truthy then
          let api2 := api.updateWith [
            ("required", .jbool true),
            ("minNumApprovals", .jint (max 1 (flags.getIntD "min_num_approvals" 1))),
            ("canReviewOwnRequest", flags.getD "can_review_own_request" (.jbool false)),
            ("canApplyDeclinedChanges", flags.getD "can_apply_declined_changes" (.jbool false)),
            ("requiredApprovalTags", flags.getD "required_approval_tags" (.jarr []))]
          if (currentEnv.getD "approvalSettings" (.jobj [])).hasKey "flagsApprovalSettings" then
            api2.set "flagsApprovalSettings" (.jobj [
              ("required", .jbool true),
              ("requiredApprovalTags", flags.getD "required_approval_tags" (.jarr [])),
              ("minNumApprovals", .jint (max 1 (flags.getIntD "min_num_approvals" 1))),
              ("canReviewOwnRequest", flags.getD "can_review_own_request" (.jbool false)),
              ("canApplyDeclinedChanges", flags.getD "can_apply_declined_changes" (.jbool false)),
              ("allowDeleteScheduledChanges", flags.getD "allow_delete_scheduled_changes" (.jbool false))])
          else api2
        else api
      let seg :=
        if (segs.getD "required" (.jbool false)).truthy then
          JVal.jobj [
            ("required", .jbool true),
            ("bypassApprovalsForPendingChanges", api.getD "bypassApprovalsForPendingChanges" (.jbool false)),
            ("minNumApprovals", .jint (max 1 (segs.getIntD "min_num_approvals" 1))),
            ("canReviewOwnRequest", segs.getD "can_review_own_request" (.jbool false)),
            ("canApplyDeclinedChanges", segs.getD "can_apply_declined_changes" (.jbool false)),
            ("serviceKind", .jstr "launchdarkly"),
            ("serviceConfig", .jobj []),
            ("requiredApprovalTags", segs.getD "required_approval_tags" (.jarr []))]
        else
          JVal.jobj [
            ("required", .jbool false),
            ("minNumApprovals", .jint 1),
            ("serviceKind", .jstr "launchdarkly"),
            ("serviceConfig", .jobj [])]
      [{ op := "replace", path := "/resourceApprovalSettings", value := .jobj [("segment", seg)] },
       { op := "replace", path := "/approvalSettings", value := api }]
    else if optIsStr (api.get "serviceKind") "servicenow" then
      let sn := JVal.jobj [
        ("required", .jbool true),
        ("bypassApprovalsForPendingChanges", api.getD "bypassApprovalsForPendingChanges" .jnull),
        ("minNumApprovals", .jint (max 1 (api.getIntD "minNumApprovals" 1))),
        ("canReviewOwnRequest", .jbool false),
        ("canApplyDeclinedChanges", .jbool true),
        ("autoApplyApprovedChanges", .jbool false),
        ("serviceKind", .jstr "servicenow"),
        ("serviceConfig", api.getD "serviceConfig" .jnull),
        ("requiredApprovalTags", .jarr [])]
      [{ op := "replace", path := "/approvalSettings", value := sn }] ++
      (if currentEnv.hasKey "resourceApprovalSettings" &&
          (currentEnv.getD "resourceApprovalSettings" .jnull).hasKey "segment" then
        [{ op := "replace", path := "/resourceApprovalSettings/segment",
           value := .jobj [
             ("required", .jbool false),
             ("minNumApprovals", .jint 1),
             ("serviceKind", .jstr "launchdarkly"),
             ("serviceConfig", .jobj [])] }]
       else [])
    else []
  else []

/-! ## Patch compilation in ld_project_setup.remove_approval_settings -/

/-- remove_approval_settings lines 870-880: the always-disabled top-level
template. -/
def removeDefaultApprovalSettings : JVal := .jobj [
  ("required", .jbool false),
  ("bypassApprovalsForPendingChanges", .jbool false),
  ("minNumApprovals", .jint 1),
  ("canReviewOwnRequest", .jbool false),
  ("canApplyDeclinedChanges", .jbool true),
  ("autoApplyApprovedChanges", .jbool false),
  ("serviceKind", .jstr "launchdarkly"),
  ("serviceConfig", .jobj []),
  ("requiredApprovalTags", .jarr [])]

/-- remove_approval_settings lines 883-892: the always-disabled segment
template. -/
def removeDefaultSegmentSettings : JVal := .jobj [
  ("required", .jbool false),
  ("bypassApprovalsForPendingChanges", .jbool false),
  ("minNumApprovals", .jint 1),
  ("canReviewOwnRequest", .jbool false),
  ("canApplyDeclinedChanges", .jbool true),
  ("serviceKind", .jstr "launchdarkly"),
  ("serviceConfig", .jobj []),
  ("requiredApprovalTags", .jarr [])]

/-- remove_approval_settings lines 894-918: the patch always replaces the
top-level document; the segment document is replaced when the live
environment already has resourceApprovalSettings and added otherwise. -/
def removeApprovalPatchOps (currentEnv : JVal) : List PatchOp :=
  [{ op := "replace", path := "/approvalSettings", value := removeDefaultApprovalSettings }] ++
  (if currentEnv.hasKey "resourceApprovalSettings" then
    [{ op := "replace", path := "/resourceApprovalSettings",
       value := .jobj [("segment", removeDefaultSegmentSettings)] }]
  else
    [{ op := "add", path := "/resourceApprovalSettings",
       value := .jobj [("segment", removeDefaultSegmentSettings)] }])

/-! ## Post-apply verification -/

/-- update_environment line 1122: the service kind expected after the
write. -/
def updateExpectedServiceKind (s : JVal) : Option JVal :=
  if optIsStr (s.get "service_kind") "servicenow" || optIsStr (s.get "service_kind") "service-now" then
    some (.jstr "servicenow")
  else s.get "service_kind"

/-- update_environment lines 1122-1125: the re-fetched environment verifies
when it carries approvalSettings whose serviceKind equals the expected
one. -/
def updateVerified (s updatedEnv : JVal) : Bool :=
  updatedEnv.hasKey "approvalSettings" &&
    pyEqOpt ((updatedEnv.getD "approvalSettings" (.jobj [])).get "serviceKind")
            (updateExpectedServiceKind s)

/-- remove_approval_settings line 943: removal verifies when the re-fetched
environment no longer has a truthy approvalSettings.required. -/
def removeVerified (updatedEnv : JVal) : Bool :=
  !((updatedEnv.getD "approvalSettings" (.jobj [])).getD "required" (.jbool false)).truthy

/-! ## Reified side-effect traces -/

/-- One remote side effect, in program order. -/
inductive Step where
  | getEnv (url : String)
  | patchEnv (url : String) (ops : List PatchOp)
  | patchEnvObj (url : String) (body : JVal)
  | sleepSec (n : Nat)

/-- True exactly on environment reads. -/
def Step.isGetEnv : Step → Bool
  | .getEnv _ => true
  | _ => false

/-- ld_project_setup.get_environment lines 156-165: one GET followed by a
one-second rate-limit delay. -/
def getEnvironmentSteps (projectKey envKey : String) : List Step :=
  [Step.getEnv (environmentUrl projectKey envKey), Step.sleepSec 1]

/-- Outcome of one reconcile call: the remote side effects in order, and the
verification result logged afterwards (none when nothing was patched). -/
structure ReconcileRun where
  steps : List Step
  verified : Option Bool

/-- ld_project_setup.update_environment lines 960-1151 with the two fetched
documents supplied as oracles: fetch, compile, and when the patch is
non-empty apply it, wait two seconds, re-fetch and compare the service
kind.  A mismatch only logs a warning; it is not raised. -/
def updateEnvironmentRun (pk0 ek0 : String) (approvalSettings0 currentEnv updatedEnv : JVal) :
    ReconcileRun :=
  let pk := pyLower pk0
  let ek := pyLower ek0
  let url := BASE_URL ++ "/projects/" ++ pk ++ "/environments/" ++ ek
  let ops := updateEnvironmentPatchOps approvalSettings0 currentEnv
  let fetch := getEnvironmentSteps pk ek
  if ops.isEmpty then
    { steps := fetch, verified := none }
  else
    { steps := fetch ++ [Step.patchEnv url ops, Step.sleepSec 2] ++
        getEnvironmentSteps pk ek ++ [Step.sleepSec 1],
      verified :=
        if approvalSettings0.truthy then
          some (updateVerified (updateNormalizeServiceKind approvalSettings0) updatedEnv)
        else none }

/-- ld_project_setup.remove_approval_settings lines 855-958 with the fetched
documents as oracles: the compiled patch is never empty, so the routine
always applies it, waits two seconds, re-fetches and checks that required
is no longer truthy; a failed check only logs a warning. -/
def removeApprovalRun (pk0 ek0 : String) (currentEnv updatedEnv : JVal) : ReconcileRun :=
  let pk := pyLower pk0
  let ek := pyLower ek0
  let url := BASE_URL ++ "/projects/" ++ pk ++ "/environments/" ++ ek
  let ops := removeApprovalPatchOps currentEnv
  { steps := getEnvironmentSteps pk ek ++ [Step.patchEnv url ops, Step.sleepSec 2] ++
      getEnvironmentSteps pk ek ++ [Step.sleepSec 1],
    verified := some (removeVerified updatedEnv) }

/-! ## Environment creation payload (ld_project_setup.create_environment) -/

/-- Python env_key in enabled_envs for a JSON array of strings. -/
def jarrContainsStr (v : JVal) (s : String) : Bool :=
  match v with
  | .jarr xs => xs.any (fun x => x.isStr s)
  | _ => false

/-- create_environment lines 770-780: the camel-case approval settings
derived from the snake_case intent.  The requested min_num_approvals is
copied verbatim: this builder applies no clamping. -/
def createApprovalApiSettings (g : JVal) : JVal := .jobj [
  ("required", g.getD "required" (.jbool true)),
  ("bypassApprovalsForPendingChanges", g.getD "bypass_approvals_for_pending_changes" (.jbool false)),
  ("minNumApprovals", g.getD "min_num_approvals" (.jint 1)),
  ("canReviewOwnRequest", g.getD "can_review_own_request" (.jbool false)),
  ("canApplyDeclinedChanges", g.getD "can_apply_declined_changes" (.jbool true)),
  ("autoApplyApprovedChanges", g.getD "auto_apply_approved_changes" (.jbool false)),
  ("serviceKind", g.getD "service_kind" (.jstr "launchdarkly")),
  ("serviceConfig", g.getD "service_config" (.jobj [])),
  ("requiredApprovalTags", g.getD "required_approval_tags" (.jarr []))]

/-- Key extraction in create_environment line 747: the key field of
env_config, lowercased. -/
def pyLowerVal (v : JVal) : String :=
  match v with
  | .jstr s => pyLower s
  | _ => ""

/-- create_environment lines 743-853: the POST payload.  The base document
comes from env_config with defaults as fallback; when a truthy
global_approval_settings is given and this environment is enabled for it,
approvalSettings (and possibly resourceApprovalSettings) are attached.  In
the servicenow branch the very same field values are written into both the
top-level and the segment documents, required=true included. -/
def createEnvironmentPayload (envConfig defaults globalApproval : JVal) : JVal :=
  let envKey := pyLowerVal (envConfig.getD "key" .jnull)
  let payload := JVal.jobj [
    ("name", envConfig.getD "name" .jnull),
    ("key", .jstr envKey),
    ("color", envConfig.getD "color" (defaults.getD "color" (.jstr "7B42BC"))),
    ("defaultTtl", envConfig.getD "default_ttl" (defaults.getD "default_ttl" (.jint 0))),
    ("secureMode", envConfig.getD "secure_mode" (defaults.getD "secure_mode" (.jbool false))),
    ("defaultTrackEvents", envConfig.getD "default_track_events" (defaults.getD "default_track_events" (.jbool false))),
    ("tags", envConfig.getD "tags" (defaults.getD "tags" (.jarr []))),
    ("requireComments", envConfig.getD "require_comments" (defaults.getD "require_comments" (.jbool false))),
    ("confirmChanges", envConfig.getD "confirm_changes" (defaults.getD "confirm_changes" (.jbool false)))]
  if globalApproval.truthy then
    let enabledOk :=
      match globalApproval.get "enabled_environments" with
      | none => true
      | some .jnull => true
      | some v => jarrContainsStr v envKey
    if enabledOk then
      let a := createApprovalApiSettings globalApproval
      if optIsStr (a.get "serviceKind") "launchdarkly" then
        let flags := globalApproval.getD "flags_approval_settings" (.jobj [])
        let segs := globalApproval.getD "segments_approval_settings" (.jobj [])
        let a :=
          if (flags.getD "required" (.jbool false)).truthy then
            a.updateWith [
              ("required", .jbool true),
              ("minNumApprovals", flags.getD "min_num_approvals" (.jint 1)),
              ("canReviewOwnRequest", flags.getD "can_review_own_request" (.jbool false)),
              ("canApplyDeclinedChanges", flags.getD "can_apply_declined_changes" (.jbool true)),
              ("requiredApprovalTags", flags.getD "required_approval_tags" (.jarr []))]
          else a
        let payload :=
          if (segs.getD "required" (.jbool false)).truthy then
            payload.set "resourceApprovalSettings" (.jobj [("segment", .jobj [
              ("required", .jbool true),
              ("bypassApprovalsForPendingChanges", a.getD "bypassApprovalsForPendingChanges" (.jbool false)),
              ("minNumApprovals", segs.getD "min_num_approvals" (.jint 1)),
              ("canReviewOwnRequest", segs.getD "can_review_own_request" (.jbool false)),
              ("canApplyDeclinedChanges", segs.getD "can_apply_declined_changes" (.jbool true)),
              ("serviceKind", .jstr "launchdarkly"),
              ("serviceConfig", .jobj []),
              ("requiredApprovalTags", segs.getD "required_approval_tags" (.jarr []))])])
          else payload
        payload.set "approvalSettings" a
      else if optIsStr (a.get "serviceKind") "servicenow" then
        let sn := JVal.jobj [
          ("required", .jbool true),
          ("bypassApprovalsForPendingChanges", a.getD "bypassApprovalsForPendingChanges" .jnull),
          ("minNumApprovals", a.getD "minNumApprovals" .jnull),
          ("canReviewOwnRequest", .jbool false),
          ("canApplyDeclinedChanges", .jbool true),
          ("autoApplyApprovedChanges", .jbool false),
          ("serviceKind", .jstr "servicenow"),
          ("serviceConfig", a.getD "serviceConfig" .jnull),
          ("requiredApprovalTags", .jarr [])]
        (payload.set "approvalSettings" sn).set "resourceApprovalSettings"
          (.jobj [("segment", sn)])
      else payload
    else payload
  else payload

/-! ## configure_approval_settings (ld_project_setup lines 446-741)

The interactive prompts are external collaborators; each prompted answer is
a parameter.  Only the data flow is embedded. -/

/-- configure_approval_settings lines 466-468: both legacy aliases map to
"servicenow"; any other value (known or unknown) passes through
unchanged. -/
def configureNormalizeServiceKind (serviceKindIn : JVal) : JVal :=
  if serviceKindIn.isStr "service-now" || serviceKindIn.isStr "servicenow-normal" then
    .jstr "servicenow"
  else serviceKindIn

/-- configure_approval_settings lines 481-488: default flag sub-policy. -/
def defaultFlagsSettings : JVal := .jobj [
  ("required", .jbool false),
  ("required_approval_tags", .jarr []),
  ("can_review_own_request", .jbool false),
  ("min_num_approvals", .jint 1),
  ("can_apply_declined_changes", .jbool false),
  ("allow_delete_scheduled_changes", .jbool false)]

/-- configure_approval_settings lines 489-495: default segment sub-policy. -/
def defaultSegmentsSettings : JVal := .jobj [
  ("required", .jbool false),
  ("required_approval_tags", .jarr []),
  ("can_review_own_request", .jbool false),
  ("min_num_approvals", .jint 1),
  ("can_apply_declined_changes", .jbool false)]

/-- configure_approval_settings lines 471-496: the initial settings document
for a given (already alias-normalized) service kind. -/
def initialApprovalSettings (serviceKind : JVal) : JVal := .jobj [
  ("required", .jbool true),
  ("bypass_approvals_for_pending_changes", .jbool false),
  ("min_num_approvals", .jint 1),
  ("can_review_own_request", .jbool false),
  ("can_apply_declined_changes", .jbool false),
  ("auto_apply_approved_changes", .jbool false),
  ("required_approval_tags", .jarr []),
  ("service_kind", serviceKind),
  ("service_config", .jobj []),
  ("flags_approval_settings", defaultFlagsSettings),
  ("segments_approval_settings", defaultSegmentsSettings)]

/-- configure_approval_settings lines 670-681: the template reference comes
from the process environment when set and non-empty, and otherwise from a
user prompt.  There is no failure path and no hard-coded fallback. -/
def resolveServiceNowTemplate (envTemplate : Option String) (promptAnswer : String) : String :=
  if pyFalsyStr envTemplate then promptAnswer else envTemplate.getD ""

/-- configure_approval_settings, ServiceNow path (lines 466-468, 503-510 and
640-698): alias normalization, the two common prompts, then the branch that
forces service_kind to "servicenow", required to true, re-prompts bypass,
takes the accepted minimum-approvals answer, installs the resolved template
into service_config and finally forces the segment sub-policy off
(line 696). -/
def configureApprovalServiceNow (serviceKindIn : JVal) (bypassCommon autoApply bypassSN : Bool)
    (minApprovalsAnswer : Int) (envTemplate : Option String) (promptAnswer : String) : JVal :=
  let sk := configureNormalizeServiceKind serviceKindIn
  let s := initialApprovalSettings sk
  let s := s.set "bypass_approvals_for_pending_changes" (.jbool bypassCommon)
  let s := s.set "auto_apply_approved_changes" (.jbool autoApply)
  let s := s.set "service_kind" (.jstr "servicenow")
  let s := s.set "required" (.jbool true)
  let s := s.set "bypass_approvals_for_pending_changes" (.jbool bypassSN)
  let s := s.set "min_num_approvals" (.jint minApprovalsAnswer)
  let s := s.set "service_config" (.jobj [
    ("template", .jstr (resolveServiceNowTemplate envTemplate promptAnswer)),
    ("detail_column", .jstr "justification")])
  s.set "segments_approval_settings"
    ((s.getD "segments_approval_settings" (.jobj [])).set "required" (.jbool false))

/-! ## update_workflow_approvals.py -/

/-- update_workflow_approvals lines 14-21: the script refuses to start when
either environment variable is unset or empty, before any network call. -/
def uwaStartup (apiKey templateId : Option String) : Except String (String × String) :=
  if pyFalsyStr apiKey then
    .error "LD_API_KEY not found in environment variables"
  else if pyFalsyStr templateId then
    .error "SERVICENOW_TEMPLATE_SYS_ID not found in environment variables"
  else
    .ok (apiKey.getD "", templateId.getD "")

/-- update_environment_approvals lines 160-183 (remove branch): one replace
per document whose required flag is currently truthy; nothing is patched
when both are already off. -/
def uwaRemovePatchOps (currentEnv : JVal) : List PatchOp :=
  (if ((currentEnv.getD "approvalSettings" (.jobj [])).getD "required" (.jbool false)).truthy then
    [{ op := "replace", path := "/approvalSettings/required", value := .jbool false }]
   else []) ++
  (if ((currentEnv.getD "resourceApprovalSettings" (.jobj [])).getD "required" (.jbool false)).truthy then
    [{ op := "replace", path := "/resourceApprovalSettings/required", value := .jbool false }]
   else [])

/-- update_environment_approvals lines 198-211 (add branch): the ServiceNow
settings document, required=true included. -/
def uwaAddApprovalSettings (templateId : String) : JVal := .jobj [
  ("required", .jbool true),
  ("bypassApprovalsForPendingChanges", .jbool false),
  ("minNumApprovals", .jint 1),
  ("canReviewOwnRequest", .jbool false),
  ("canApplyDeclinedChanges", .jbool true),
  ("autoApplyApprovedChanges", .jbool true),
  ("serviceKind", .jstr "servicenow"),
  ("serviceConfig", .jobj [
    ("detail_column", .jstr "justification"),
    ("template", .jstr templateId)]),
  ("requiredApprovalTags", .jarr [])]

/-- update_environment_approvals lines 215-218: the same document is
transmitted as both approvalSettings and resourceApprovalSettings. -/
def uwaAddPatch (templateId : String) : JVal := .jobj [
  ("approvalSettings", uwaAddApprovalSettings templateId),
  ("resourceApprovalSettings", uwaAddApprovalSettings templateId)]

/-- update_workflow_approvals.get_environment lines 137-143: one GET (keys
unchanged) and a two-second delay. -/
def uwaGetEnvironmentSteps (projectKey envKey : String) : List Step :=
  [Step.getEnv (uwaEnvironmentUrl projectKey envKey), Step.sleepSec 2]

/-- update_environment_approvals lines 153-226 with the fetched document as
oracle: fetch, then either the conditional remove patch or the add patch,
then a delay, then return.  No branch re-fetches after the apply. -/
def uwaUpdateApprovalsSteps (pk ek : String) (removeFlag : Bool) (currentEnv : JVal)
    (templateId : String) : List Step :=
  let url := uwaEnvironmentUrl pk ek
  uwaGetEnvironmentSteps pk ek ++
  (if removeFlag then
    let ops := uwaRemovePatchOps currentEnv
    if ops.isEmpty then []
    else [Step.patchEnv url ops, Step.sleepSec 2]
   else
    [Step.patchEnvObj url (uwaAddPatch templateId), Step.sleepSec 2])

/-- update_workflow_approvals.needs_approval_settings lines 228-240: the
orchestrator-level precondition deciding update versus skip. -/
def needs_approval_settings (env : JVal) (removeFlag : Bool) : Bool :=
  let cur := env.getD "approvalSettings" (.jobj [])
  let curRes := env.getD "resourceApprovalSettings" (.jobj [])
  if removeFlag then
    cur.truthy || curRes.truthy
  else
    !(optIsStr (cur.get "serviceKind") "servicenow" &&
      optIsStr (curRes.get "serviceKind") "servicenow")

/-! ## handle_response and get_project (ld_project_setup lines 64-144) -/

/-- Outcome of one HTTP request: either a response with a status code and a
parsed JSON body (none when the body is not valid JSON), or a raised
transport error. -/
inductive HttpResult where
  | response (status : Nat) (body : Option JVal)
  | netError (msg : String)

/-- handle_response lines 64-81: raise_for_status raises on every 4xx/5xx
status (caught and re-raised as a generic API error), a 204 returns None,
and otherwise the parsed JSON body is returned (an unparseable body raises
inside the same try and is converted to the same API error). -/
def handle_response (status : Nat) (body : Option JVal) (operation : String) :
    Except String (Option JVal) :=
  if 400 ≤ status ∧ status < 600 then
    .error ("API error during " ++ operation)
  else if status == 204 then
    .ok none
  else
    match body with
    | some j => .ok (some j)
    | none => .error ("API error during " ++ operation)

/-- get_project lines 130-144, body of the try block: a raised transport
error propagates, a 404 returns None, and every other response goes through
handle_response. -/
def getProjectTry (projectKey : String) (r : HttpResult) : Except String (Option JVal) :=
  match r with
  | .netError m => .error m
  | .response status body =>
    if status == 404 then .ok none
    else handle_response status body ("getting project (" ++ pyLower projectKey ++ ")")

/-- get_project lines 130-144 with the except handler (lines 142-144): any
raised error is logged and converted to None, so the caller receives None
for a missing project and for every failed read alike. -/
def get_project (projectKey : String) (r : HttpResult) : Option JVal :=
  match getProjectTry projectKey r with
  | .error _ => none
  | .ok v => v

/-! ## The batch loop of update_workflow_approvals.main (lines 444-488)

The same project-level try/except structure appears in
ld_project_setup.main lines 1323-1394.  Each environment target carries the
oracle results of its needs_approval_settings check and of its update call;
the loop body is translated directly: a skip increments skipped_count, a
successful update increments updated_count, and a raised error aborts the
enclosing per-project try, increments error_count once and moves on to the
next project. -/

/-- What happened when one environment was processed: the update call
returned, or it raised an API error with the given status. -/
inductive EnvOutcome where
  | applied
  | raisedError (status : Nat)
deriving DecidableEq

/-- One environment target with its oracle observations. -/
structure EnvTarget where
  id : Nat
  needsUpdate : Bool
  outcome : EnvOutcome
deriving DecidableEq

/-- Result of the inner environment loop of one project: count deltas, the
ids applied in order, and whether an error was raised (aborting the rest of
the environments of this project). -/
structure EnvLoopResult where
  updated : Nat
  skipped : Nat
  applied : List Nat
  raised : Bool
deriving DecidableEq

/-- The inner for-env loop (update_workflow_approvals lines 462-483): a
raised error stops the loop of this project at once; later environments of the
same project are not reached. -/
def processEnvs : List EnvTarget → EnvLoopResult
  | [] => ⟨0, 0, [], false⟩
  | e :: rest =>
    if e.needsUpdate then
      match e.outcome with
      | .applied =>
        let r := processEnvs rest
        ⟨r.updated + 1, r.skipped, e.id :: r.applied, r.raised⟩
      | .raisedError _ => ⟨0, 0, [], true⟩
    else
      let r := processEnvs rest
      ⟨r.updated, r.skipped + 1, r.applied, r.raised⟩

/-- The final statistics printed at lines 491-494. -/
structure BatchStats where
  updated : Nat
  skipped : Nat
  errored : Nat
deriving DecidableEq

/-- The outer for-project loop with its per-project try/except
(lines 444-488): a project whose environment loop raised adds one to
error_count and the batch continues with the remaining projects.  Returns
the statistics and the ids of all applied environment targets in order. -/
def runBatch : List (List EnvTarget) → BatchStats × List Nat
  | [] => (⟨0, 0, 0⟩, [])
  | p :: rest =>
    let r := processEnvs p
    let t := runBatch rest
    (⟨r.updated + t.1.updated, r.skipped + t.1.skipped,
      (if r.raised then 1 else 0) + t.1.errored⟩,
     r.applied ++ t.2)

/-! ## Helper lemmas -/

/-- Lookup in an object literal unfolds to association-list lookup. -/
theorem JVal.get_jobj (fs : List (String × JVal)) (k : String) :
    JVal.get (.jobj fs) k = fs.lookup k := rfl

/-! ## Claim C1: ordering of the two replace operations -/

/-- Claim C1 counterexample: for a native (launchdarkly) intent, the patch
sequence compiled by update_environment touches both documents, and the
operation replacing the per-resource-kind Segment document
(path /resourceApprovalSettings, index 0) comes strictly BEFORE the
operation replacing the top-level document (path /approvalSettings,
index 1) — the opposite of the claimed order. -/
theorem c1_counterexample :
    (updateEnvironmentPatchOps (.jobj [("service_kind", .jstr "launchdarkly")])
        (.jobj [])).map (fun o => o.path) =
      ["/resourceApprovalSettings", "/approvalSettings"] := rfl

/-- Claim C1 (amended): remove_approval_settings and the servicenow branch
of update_environment emit the top-level /approvalSettings operation first;
the native (launchdarkly) branch of update_environment emits the
/resourceApprovalSettings operation first and the top-level operation
second. -/
theorem c1_amended_patch_order (s env s2 env2 : JVal)
    (h0 : s.truthy = true)
    (h1 : s.get "service_kind" = some (.jstr "launchdarkly"))
    (g0 : s2.truthy = true)
    (g1 : s2.get "service_kind" = some (.jstr "servicenow"))
    (g2 : env2.hasKey "resourceApprovalSettings" = true)
    (g3 : (env2.getD "resourceApprovalSettings" .jnull).hasKey "segment" = true) :
    (updateEnvironmentPatchOps s env).map (fun o => o.path) =
      ["/resourceApprovalSettings", "/approvalSettings"] ∧
    (removeApprovalPatchOps env).map (fun o => o.path) =
      ["/approvalSettings", "/resourceApprovalSettings"] ∧
    (updateEnvironmentPatchOps s2 env2).map (fun o => o.path) =
      ["/approvalSettings", "/resourceApprovalSettings/segment"] := by
  refine ⟨?_, ?_, ?_⟩
  · simp [updateEnvironmentPatchOps, updateNormalizeServiceKind, JVal.get_jobj,
      List.lookup, optIsStr, JVal.isStr, JVal.getD, h0, h1]
  · cases h : env.hasKey "resourceApprovalSettings" <;> simp [removeApprovalPatchOps, h]
  · have g3x : ((env2.get "resourceApprovalSettings").getD JVal.jnull).hasKey "segment" = true := g3
    simp [updateEnvironmentPatchOps, updateNormalizeServiceKind, JVal.get_jobj,
      List.lookup, optIsStr, JVal.isStr, JVal.getD, g0, g1, g2, g3x]

/-- Witness for c1_amended_patch_order at concrete inputs. -/
theorem c1_amended_patch_order_witness :
    (updateEnvironmentPatchOps (.jobj [("service_kind", .jstr "launchdarkly"),
        ("min_num_approvals", .jint 2)]) (.jobj [("key", .jstr "production")])).map
      (fun o => o.path) = ["/resourceApprovalSettings", "/approvalSettings"] ∧
    (removeApprovalPatchOps (.jobj [("key", .jstr "production")])).map (fun o => o.path) =
      ["/approvalSettings", "/resourceApprovalSettings"] ∧
    (updateEnvironmentPatchOps (.jobj [("service_kind", .jstr "servicenow")])
        (.jobj [("resourceApprovalSettings", .jobj [("segment", .jobj [("required", .jbool true)])])])).map
      (fun o => o.path) = ["/approvalSettings", "/resourceApprovalSettings/segment"] :=
  c1_amended_patch_order
    (.jobj [("service_kind", .jstr "launchdarkly"), ("min_num_approvals", .jint 2)])
    (.jobj [("key", .jstr "production")])
    (.jobj [("service_kind", .jstr "servicenow")])
    (.jobj [("resourceApprovalSettings", .jobj [("segment", .jobj [("required", .jbool true)])])])
    rfl rfl rfl rfl rfl rfl

/-! ## Claim C2: segment sub-policy under the ServiceNow backend -/

/-- Claim C2 counterexample: for a ServiceNow policy, both create_environment
and update_workflow_approvals transmit a segment / resource approval
document whose required flag is TRUE on the wire, and no validation error is
raised anywhere on the way; the claimed invariant (enabled/required false on
the wire, or an UnsupportedCombination failure) is false. -/
theorem c2_counterexample :
    (((createEnvironmentPayload (.jobj [("key", .jstr "Prod"), ("name", .jstr "Production")])
          (.jobj []) (.jobj [("service_kind", .jstr "servicenow")])).getD
        "resourceApprovalSettings" .jnull).getD "segment" .jnull).get "required" =
      some (.jbool true) ∧
    ((uwaAddPatch "tmpl-1").getD "resourceApprovalSettings" .jnull).get "required" =
      some (.jbool true) ∧
    JVal.jbool true ≠ JVal.jbool false := by
  refine ⟨rfl, rfl, by simp⟩

/-- Claim C2 (amended): configure_approval_settings forces the segment
sub-policy off for ServiceNow, and the servicenow branch of
update_environment patches any existing segment document to required=false
(no validation error exists; the combination is silently rewritten); but
create_environment and update_workflow_approvals transmit the segment
document with required=true (the counterexample). -/
theorem c2_amended_segment_disabled (serviceKindIn : JVal) (b1 b2 b3 : Bool) (m : Int)
    (envT : Option String) (ans : String) (s env2 : JVal)
    (g0 : s.truthy = true)
    (g1 : s.get "service_kind" = some (.jstr "servicenow"))
    (g2 : env2.hasKey "resourceApprovalSettings" = true)
    (g3 : (env2.getD "resourceApprovalSettings" .jnull).hasKey "segment" = true) :
    ((configureApprovalServiceNow serviceKindIn b1 b2 b3 m envT ans).getD
        "segments_approval_settings" .jnull).get "required" = some (.jbool false) ∧
    opValueAt (updateEnvironmentPatchOps s env2) "/resourceApprovalSettings/segment" =
      some (.jobj [("required", .jbool false), ("minNumApprovals", .jint 1),
        ("serviceKind", .jstr "launchdarkly"), ("serviceConfig", .jobj [])]) := by
  constructor
  · rfl
  · have g3x : ((env2.get "resourceApprovalSettings").getD JVal.jnull).hasKey "segment" = true := g3
    simp [updateEnvironmentPatchOps, updateNormalizeServiceKind, JVal.get_jobj,
      List.lookup, optIsStr, JVal.isStr, JVal.getD, g0, g1, g2, g3x,
      opValueAt, List.find?]

/-- Witness for c2_amended_segment_disabled at concrete inputs. -/
theorem c2_amended_segment_disabled_witness :
    ((configureApprovalServiceNow (.jstr "servicenow") false false true 3 (some "tid-9")
        "unused").getD "segments_approval_settings" .jnull).get "required" =
      some (.jbool false) ∧
    opValueAt (updateEnvironmentPatchOps (.jobj [("service_kind", .jstr "servicenow")])
        (.jobj [("resourceApprovalSettings", .jobj [("segment",
          .jobj [("required", .jbool true)])])])) "/resourceApprovalSettings/segment" =
      some (.jobj [("required", .jbool false), ("minNumApprovals", .jint 1),
        ("serviceKind", .jstr "launchdarkly"), ("serviceConfig", .jobj [])]) :=
  c2_amended_segment_disabled (.jstr "servicenow") false false true 3 (some "tid-9") "unused"
    (.jobj [("service_kind", .jstr "servicenow")])
    (.jobj [("resourceApprovalSettings", .jobj [("segment", .jobj [("required", .jbool true)])])])
    rfl rfl rfl rfl

/-! ## Claim C3: minimal diff -/

/-- Target intent for the C3 counterexample: a plain native policy. -/
def c3target : JVal := .jobj [("service_kind", .jstr "launchdarkly")]

/-- Live state for the C3 counterexample: exactly the two documents the
update compiler itself transmits for c3target, so live and target are
identical. -/
def c3live : JVal := .jobj [
  ("approvalSettings", .jobj [
    ("required", .jbool true),
    ("bypassApprovalsForPendingChanges", .jbool false),
    ("minNumApprovals", .jint 1),
    ("canReviewOwnRequest", .jbool false),
    ("canApplyDeclinedChanges", .jbool false),
    ("autoApplyApprovedChanges", .jbool false),
    ("serviceKind", .jstr "launchdarkly"),
    ("serviceConfig", .jobj []),
    ("requiredApprovalTags", .jarr [])]),
  ("resourceApprovalSettings", .jobj [("segment", .jobj [
    ("required", .jbool false),
    ("minNumApprovals", .jint 1),
    ("serviceKind", .jstr "launchdarkly"),
    ("serviceConfig", .jobj [])])])]

/-- Claim C3 counterexample: compiling against a live state identical to the
target still emits a non-empty patch, and both emitted replace operations
carry values equal to the live values they overwrite.  The compiler never
diffs against live state. -/
theorem c3_counterexample :
    opValueAt (updateEnvironmentPatchOps c3target c3live) "/approvalSettings" =
      c3live.get "approvalSettings" ∧
    opValueAt (updateEnvironmentPatchOps c3target c3live) "/resourceApprovalSettings" =
      c3live.get "resourceApprovalSettings" ∧
    updateEnvironmentPatchOps c3target c3live ≠ [] := by
  have hlen : (updateEnvironmentPatchOps c3target c3live).length = 2 := rfl
  exact ⟨rfl, rfl, fun h => by simp [h] at hlen⟩

/-- Claim C3 (amended): update_environment always emits exactly two
full-document replace operations for a native intent and
remove_approval_settings always emits exactly two operations, both
irrespective of the live values; the only compiler that emits an empty
patch when nothing differs is the remove branch of
update_workflow_approvals, which patches a document exactly when its
required flag is currently truthy. -/
theorem c3_amended_no_diffing (s env env2 : JVal)
    (h0 : s.truthy = true)
    (h1 : s.get "service_kind" = some (.jstr "launchdarkly")) :
    (updateEnvironmentPatchOps s env).length = 2 ∧
    (removeApprovalPatchOps env).length = 2 ∧
    (uwaRemovePatchOps env2 = [] ↔
      (((env2.getD "approvalSettings" (.jobj [])).getD "required" (.jbool false)).truthy = false ∧
       ((env2.getD "resourceApprovalSettings" (.jobj [])).getD "required" (.jbool false)).truthy = false)) := by
  refine ⟨?_, ?_, ?_⟩
  · simp [updateEnvironmentPatchOps, updateNormalizeServiceKind, JVal.get_jobj,
      List.lookup, optIsStr, JVal.isStr, JVal.getD, h0, h1]
  · cases h : env.hasKey "resourceApprovalSettings" <;> simp [removeApprovalPatchOps, h]
  · cases hA : ((env2.getD "approvalSettings" (.jobj [])).getD "required" (.jbool false)).truthy <;>
      cases hB : ((env2.getD "resourceApprovalSettings" (.jobj [])).getD "required" (.jbool false)).truthy <;>
        simp [uwaRemovePatchOps, hA, hB]

/-- Witness for c3_amended_no_diffing at concrete inputs. -/
theorem c3_amended_no_diffing_witness :
    (updateEnvironmentPatchOps (.jobj [("service_kind", .jstr "launchdarkly")])
      (.jobj [("approvalSettings", .jobj [("required", .jbool true)])])).length = 2 ∧
    (removeApprovalPatchOps (.jobj [("approvalSettings", .jobj [("required", .jbool true)])])).length = 2 ∧
    (uwaRemovePatchOps (.jobj [("key", .jstr "production")]) = [] ↔
      ((((JVal.jobj [("key", .jstr "production")]).getD "approvalSettings" (.jobj [])).getD
          "required" (.jbool false)).truthy = false ∧
       (((JVal.jobj [("key", .jstr "production")]).getD "resourceApprovalSettings" (.jobj [])).getD
          "required" (.jbool false)).truthy = false)) :=
  c3_amended_no_diffing (.jobj [("service_kind", .jstr "launchdarkly")])
    (.jobj [("approvalSettings", .jobj [("required", .jbool true)])])
    (.jobj [("key", .jstr "production")]) rfl rfl

/-! ## Claim C4: clamping of the minimum approval count -/

/-- Claim C4 counterexample: create_environment transmits the requested
minNumApprovals unchanged — for requested 0 the wire value is 0, not
max(1, 0) = 1 — and update_environment transmits 7 for requested 7, so no
path clamps into the claimed interval with upper bound 5. -/
theorem c4_counterexample :
    ((createEnvironmentPayload (.jobj [("key", .jstr "Staging"), ("name", .jstr "Staging")])
        (.jobj []) (.jobj [("min_num_approvals", .jint 0)])).getD
      "approvalSettings" .jnull).get "minNumApprovals" = some (.jint 0) ∧
    ¬((0 : Int) = max 1 0) ∧
    (opValueAt (updateEnvironmentPatchOps (.jobj [("min_num_approvals", .jint 7)]) (.jobj []))
        "/approvalSettings").bind (fun v => v.get "minNumApprovals") = some (.jint 7) ∧
    ¬((7 : Int) ≤ 5) := by
  exact ⟨rfl, by decide, rfl, by decide⟩

/-- Claim C4 (amended): update_environment clamps the transmitted
minNumApprovals to max(1, requested), but create_environment transmits the
requested value unchanged; no write path enforces the upper bound 5 (that
bound exists only in the interactive prompt loop). -/
theorem c4_amended_min_approvals (s env g envC defC : JVal) (m k : Int)
    (h0 : s.truthy = true)
    (h1 : s.get "service_kind" = some (.jstr "launchdarkly"))
    (h2 : s.get "min_num_approvals" = some (.jint m))
    (h3 : ((s.getD "flags_approval_settings" (.jobj [])).getD "required" (.jbool false)).truthy
      = false)
    (g0 : g.truthy = true)
    (g1 : g.get "enabled_environments" = none)
    (g2 : g.get "service_kind" = some (.jstr "launchdarkly"))
    (g3 : g.get "min_num_approvals" = some (.jint k))
    (g4 : ((g.getD "flags_approval_settings" (.jobj [])).getD "required" (.jbool false)).truthy
      = false)
    (g5 : ((g.getD "segments_approval_settings" (.jobj [])).getD "required" (.jbool false)).truthy
      = false) :
    (opValueAt (updateEnvironmentPatchOps s env) "/approvalSettings").bind
        (fun v => v.get "minNumApprovals") = some (.jint (max 1 m)) ∧
    ((createEnvironmentPayload envC defC g).getD "approvalSettings" .jnull).get
        "minNumApprovals" = some (.jint k) := by
  have h3x : ((((s.get "flags_approval_settings").getD (JVal.jobj [])).get
      "required").getD (JVal.jbool false)).truthy = false := h3
  have g4x : ((((g.get "flags_approval_settings").getD (JVal.jobj [])).get
      "required").getD (JVal.jbool false)).truthy = false := g4
  have g5x : ((((g.get "segments_approval_settings").getD (JVal.jobj [])).get
      "required").getD (JVal.jbool false)).truthy = false := g5
  constructor
  · simp [updateEnvironmentPatchOps, updateNormalizeServiceKind, JVal.get_jobj,
      List.lookup, optIsStr, JVal.isStr, JVal.getD, JVal.getIntD, h0, h1, h2, h3x,
      opValueAt, List.find?]
  · simp [createEnvironmentPayload, createApprovalApiSettings, JVal.get_jobj,
      List.lookup, optIsStr, JVal.isStr, JVal.getD, JVal.set, setField,
      g0, g1, g2, g3, g4x, g5x]

/-- Witness for c4_amended_min_approvals: requested value 0 becomes 1 on the
update path and stays 0 on the create path. -/
theorem c4_amended_min_approvals_witness :
    (opValueAt (updateEnvironmentPatchOps (.jobj [("service_kind", .jstr "launchdarkly"),
        ("min_num_approvals", .jint 0)]) (.jobj [])) "/approvalSettings").bind
      (fun v => v.get "minNumApprovals") = some (.jint (max 1 0)) ∧
    ((createEnvironmentPayload (.jobj [("key", .jstr "Dev"), ("name", .jstr "Dev")]) (.jobj [])
        (.jobj [("service_kind", .jstr "launchdarkly"), ("min_num_approvals", .jint 0)])).getD
      "approvalSettings" .jnull).get "minNumApprovals" = some (.jint 0) :=
  c4_amended_min_approvals
    (.jobj [("service_kind", .jstr "launchdarkly"), ("min_num_approvals", .jint 0)])
    (.jobj [])
    (.jobj [("service_kind", .jstr "launchdarkly"), ("min_num_approvals", .jint 0)])
    (.jobj [("key", .jstr "Dev"), ("name", .jstr "Dev")]) (.jobj []) 0 0
    rfl rfl rfl rfl rfl rfl rfl rfl rfl rfl

/-! ## Claim C5: failure isolation in the batch loop -/

/-- A batch of three targets that are three environments of ONE project;
the second raises an API error with status 500. -/
def c5singleProjectBatch : List (List EnvTarget) :=
  [[⟨1, true, .applied⟩, ⟨2, true, .raisedError 500⟩, ⟨3, true, .applied⟩]]

/-- Claim C5 counterexample: when the three targets live in one project, the
error raised by target 2 aborts the per-project loop, so target 3 is never
processed: the outcome is 1 updated and 1 errored — not the claimed 2
updated with targets 1 and 3 both applied.  Failure isolation is per
project, not per target. -/
theorem c5_counterexample :
    runBatch c5singleProjectBatch = (⟨1, 0, 1⟩, [1]) ∧
    (runBatch c5singleProjectBatch).1.updated ≠ 2 ∧
    3 ∉ (runBatch c5singleProjectBatch).2 := by
  refine ⟨rfl, by decide, by decide⟩

/-- A batch of three targets in three distinct projects; the second raises
an API error with status 500. -/
def c5threeProjectBatch : List (List EnvTarget) :=
  [[⟨1, true, .applied⟩], [⟨2, true, .raisedError 500⟩], [⟨3, true, .applied⟩]]

/-- Combining two batches combines counts additively and concatenates the
applied targets: no failure inside the first part affects the second. -/
theorem runBatch_append (ps qs : List (List EnvTarget)) :
    runBatch (ps ++ qs) =
      (⟨(runBatch ps).1.updated + (runBatch qs).1.updated,
        (runBatch ps).1.skipped + (runBatch qs).1.skipped,
        (runBatch ps).1.errored + (runBatch qs).1.errored⟩,
       (runBatch ps).2 ++ (runBatch qs).2) := by
  induction ps with
  | nil => simp [runBatch]
  | cons p rest ih => simp [runBatch, ih, Nat.add_assoc]

/-- Claim C5 (amended): failure isolation holds at project granularity: a
raised error while processing one project of the batch increments the error
count and the remaining projects are still processed in full (counts add
and applied lists concatenate across any split of the project list); in
particular three targets in three distinct projects, the second raising
ApiError 500, give 2 updated, 1 errored, with targets 1 and 3 applied.
Within one project, a raised error skips that project's remaining
environments (the counterexample). -/
theorem c5_amended_batch_isolation (ps qs : List (List EnvTarget)) :
    (runBatch (ps ++ qs)).2 = (runBatch ps).2 ++ (runBatch qs).2 ∧
    (runBatch (ps ++ qs)).1.errored = (runBatch ps).1.errored + (runBatch qs).1.errored ∧
    (runBatch (ps ++ qs)).1.updated = (runBatch ps).1.updated + (runBatch qs).1.updated ∧
    (runBatch (ps ++ qs)).1.skipped = (runBatch ps).1.skipped + (runBatch qs).1.skipped ∧
    runBatch c5threeProjectBatch = (⟨2, 0, 1⟩, [1, 3]) := by
  refine ⟨?_, ?_, ?_, ?_, rfl⟩ <;> simp [runBatch_append ps qs]

/-! ## Claim C6: serviceKind normalization -/

/-- Claim C6 counterexample: update_environment does NOT normalize the
legacy alias "servicenow-normal" (it is left unchanged and, being neither
canonical value, silently produces an empty patch list instead of an
error), and configure_approval_settings passes an unknown serviceKind
through unchanged instead of failing. -/
theorem c6_counterexample :
    (updateNormalizeServiceKind (.jobj [("service_kind", .jstr "servicenow-normal")])).get
        "service_kind" = some (.jstr "servicenow-normal") ∧
    updateEnvironmentPatchOps (.jobj [("service_kind", .jstr "servicenow-normal")])
      (.jobj []) = [] ∧
    configureNormalizeServiceKind (.jstr "frobnicate") = .jstr "frobnicate" ∧
    JVal.jstr "servicenow-normal" ≠ JVal.jstr "servicenow" := by
  refine ⟨rfl, rfl, rfl, by simp⟩

/-- Claim C6 (amended): configure_approval_settings maps both legacy aliases
to the single canonical value "servicenow", but update_environment maps
only "service-now"; any serviceKind that is neither a mapped alias nor a
canonical value is carried through unchanged by the normalizers and makes
update_environment emit no patch operation at all — a silent no-op, not an
error. -/
theorem c6_amended_normalization (v k : String) (s env : JVal)
    (hv1 : v ≠ "service-now") (hv2 : v ≠ "servicenow-normal")
    (h0 : s.truthy = true)
    (h1 : s.get "service_kind" = some (.jstr k))
    (hk1 : k ≠ "launchdarkly") (hk2 : k ≠ "servicenow") (hk3 : k ≠ "service-now") :
    configureNormalizeServiceKind (.jstr "service-now") = .jstr "servicenow" ∧
    configureNormalizeServiceKind (.jstr "servicenow-normal") = .jstr "servicenow" ∧
    configureNormalizeServiceKind (.jstr v) = .jstr v ∧
    updateEnvironmentPatchOps s env = [] := by
  refine ⟨rfl, rfl, ?_, ?_⟩
  · simp [configureNormalizeServiceKind, JVal.isStr, hv1, hv2]
  · simp [updateEnvironmentPatchOps, updateNormalizeServiceKind, JVal.get_jobj,
      List.lookup, optIsStr, JVal.isStr, JVal.getD, h0, h1, hk1, hk2, hk3]

/-- Witness for c6_amended_normalization: the alias "servicenow-normal"
itself is unknown to the update path and is dropped silently. -/
theorem c6_amended_normalization_witness :
    configureNormalizeServiceKind (.jstr "service-now") = .jstr "servicenow" ∧
    configureNormalizeServiceKind (.jstr "servicenow-normal") = .jstr "servicenow" ∧
    configureNormalizeServiceKind (.jstr "custom-backend") = .jstr "custom-backend" ∧
    updateEnvironmentPatchOps (.jobj [("service_kind", .jstr "servicenow-normal")])
      (.jobj [("key", .jstr "production")]) = [] :=
  c6_amended_normalization "custom-backend" "servicenow-normal"
    (.jobj [("service_kind", .jstr "servicenow-normal")])
    (.jobj [("key", .jstr "production")])
    (by decide) (by decide) rfl rfl (by decide) (by decide) (by decide)

/-! ## Claim C7: verification after apply -/

/-- Claim C7 counterexample: update_environment_approvals (the
update_workflow_approvals script) applies a non-empty patch and never
re-fetches afterwards: its full effect trace is fetch, delay, patch, delay,
and every step after the patch fails the isGetEnv test. -/
theorem c7_counterexample :
    uwaUpdateApprovalsSteps "proj" "prod" false (.jobj []) "tmpl-1" =
      [Step.getEnv (uwaEnvironmentUrl "proj" "prod"), Step.sleepSec 2,
       Step.patchEnvObj (uwaEnvironmentUrl "proj" "prod") (uwaAddPatch "tmpl-1"),
       Step.sleepSec 2] ∧
    ((uwaUpdateApprovalsSteps "proj" "prod" false (.jobj []) "tmpl-1").drop 2).all
      (fun st => !st.isGetEnv) = true := by
  exact ⟨rfl, rfl⟩

/-- Claim C7 (amended): update_environment and remove_approval_settings do
re-fetch after a two-second settling delay whenever they applied a
non-empty patch, and compare the decisive field (serviceKind for update,
the required flag for removal); a mismatch is recorded as a distinct false
verification value that is logged as a warning, never raised; but
update_environment_approvals applies its patch with no re-fetch at all. -/
theorem c7_amended_verification (pk ek : String) (s env upd env2 upd2 : JVal)
    (h : (updateEnvironmentPatchOps s env).isEmpty = false)
    (ht : s.truthy = true) :
    (updateEnvironmentRun pk ek s env upd).steps =
      getEnvironmentSteps (pyLower pk) (pyLower ek) ++
      [Step.patchEnv (BASE_URL ++ "/projects/" ++ pyLower pk ++ "/environments/" ++ pyLower ek)
         (updateEnvironmentPatchOps s env), Step.sleepSec 2] ++
      getEnvironmentSteps (pyLower pk) (pyLower ek) ++ [Step.sleepSec 1] ∧
    (updateEnvironmentRun pk ek s env upd).verified =
      some (upd.hasKey "approvalSettings" &&
        pyEqOpt ((upd.getD "approvalSettings" (.jobj [])).get "serviceKind")
          (updateExpectedServiceKind (updateNormalizeServiceKind s))) ∧
    (removeApprovalRun pk ek env2 upd2).steps =
      getEnvironmentSteps (pyLower pk) (pyLower ek) ++
      [Step.patchEnv (BASE_URL ++ "/projects/" ++ pyLower pk ++ "/environments/" ++ pyLower ek)
         (removeApprovalPatchOps env2), Step.sleepSec 2] ++
      getEnvironmentSteps (pyLower pk) (pyLower ek) ++ [Step.sleepSec 1] ∧
    (removeApprovalRun pk ek env2 upd2).verified =
      some (!((upd2.getD "approvalSettings" (.jobj [])).getD "required" (.jbool false)).truthy) ∧
    ((uwaUpdateApprovalsSteps pk ek false env2 "tmpl").drop 2).all
      (fun st => !st.isGetEnv) = true := by
  refine ⟨?_, ?_, rfl, rfl, rfl⟩
  · simp [updateEnvironmentRun, h]
  · simp [updateEnvironmentRun, updateVerified, h, ht]

/-- Witness for c7_amended_verification at concrete inputs (the re-fetched
state carries a different serviceKind, so verification yields false). -/
theorem c7_amended_verification_witness :
    (updateEnvironmentRun "Demo" "Prod" (.jobj [("service_kind", .jstr "launchdarkly")])
        (.jobj []) (.jobj [("approvalSettings", .jobj [("serviceKind", .jstr "servicenow")])])).steps =
      getEnvironmentSteps (pyLower "Demo") (pyLower "Prod") ++
      [Step.patchEnv (BASE_URL ++ "/projects/" ++ pyLower "Demo" ++ "/environments/" ++ pyLower "Prod")
         (updateEnvironmentPatchOps (.jobj [("service_kind", .jstr "launchdarkly")]) (.jobj [])),
       Step.sleepSec 2] ++
      getEnvironmentSteps (pyLower "Demo") (pyLower "Prod") ++ [Step.sleepSec 1] ∧
    (updateEnvironmentRun "Demo" "Prod" (.jobj [("service_kind", .jstr "launchdarkly")])
        (.jobj []) (.jobj [("approvalSettings", .jobj [("serviceKind", .jstr "servicenow")])])).verified =
      some ((JVal.jobj [("approvalSettings", .jobj [("serviceKind", .jstr "servicenow")])]).hasKey
          "approvalSettings" &&
        pyEqOpt (((JVal.jobj [("approvalSettings", .jobj [("serviceKind", .jstr "servicenow")])]).getD
            "approvalSettings" (.jobj [])).get "serviceKind")
          (updateExpectedServiceKind (updateNormalizeServiceKind
            (.jobj [("service_kind", .jstr "launchdarkly")])))) ∧
    (removeApprovalRun "Demo" "Prod" (.jobj []) (.jobj [("approvalSettings",
        .jobj [("required", .jbool true)])])).steps =
      getEnvironmentSteps (pyLower "Demo") (pyLower "Prod") ++
      [Step.patchEnv (BASE_URL ++ "/projects/" ++ pyLower "Demo" ++ "/environments/" ++ pyLower "Prod")
         (removeApprovalPatchOps (.jobj [])), Step.sleepSec 2] ++
      getEnvironmentSteps (pyLower "Demo") (pyLower "Prod") ++ [Step.sleepSec 1] ∧
    (removeApprovalRun "Demo" "Prod" (.jobj []) (.jobj [("approvalSettings",
        .jobj [("required", .jbool true)])])).verified =
      some (!(((JVal.jobj [("approvalSettings", .jobj [("required", .jbool true)])]).getD
          "approvalSettings" (.jobj [])).getD "required" (.jbool false)).truthy) ∧
    ((uwaUpdateApprovalsSteps "Demo" "Prod" false (.jobj []) "tmpl").drop 2).all
      (fun st => !st.isGetEnv) = true :=
  c7_amended_verification "Demo" "Prod" (.jobj [("service_kind", .jstr "launchdarkly")])
    (.jobj []) (.jobj [("approvalSettings", .jobj [("serviceKind", .jstr "servicenow")])])
    (.jobj []) (.jobj [("approvalSettings", .jobj [("required", .jbool true)])])
    rfl rfl

/-! ## Claim C8: the missing external template reference -/

/-- Claim C8 counterexample: with no template reference in the process
configuration (envTemplate none) and none in the policy,
configure_approval_settings does not fail at all: it completes and installs
the operator-prompted value as the template, so no MissingExternalConfig
validation failure exists on this path. -/
theorem c8_counterexample :
    ((configureApprovalServiceNow (.jstr "servicenow") false false false 1 none
        "entered-by-operator").getD "service_config" .jnull).get "template" =
      some (.jstr "entered-by-operator") ∧
    (configureApprovalServiceNow (.jstr "servicenow") false false false 1 none
        "entered-by-operator").truthy = true := by
  exact ⟨rfl, rfl⟩

/-- Claim C8 (amended): the template written to service_config is always the
resolved value — the process environment variable when set and non-empty,
otherwise the prompted answer — never a hard-coded default; and
update_workflow_approvals, which has no prompt, refuses to start (before
any network call) when the variable is missing or empty. -/
theorem c8_amended_template_resolution (skIn : JVal) (b1 b2 b3 : Bool) (m : Int)
    (t t2 : Option String) (ans : String)
    (ht : pyFalsyStr t = true) (h2 : pyFalsyStr t2 = false) :
    ((configureApprovalServiceNow skIn b1 b2 b3 m t ans).getD "service_config" .jnull).get
        "template" = some (.jstr (resolveServiceNowTemplate t ans)) ∧
    resolveServiceNowTemplate t ans = ans ∧
    resolveServiceNowTemplate t2 ans = t2.getD "" ∧
    uwaStartup (some "api-key") t =
      .error "SERVICENOW_TEMPLATE_SYS_ID not found in environment variables" := by
  refine ⟨rfl, ?_, ?_, ?_⟩
  · simp [resolveServiceNowTemplate, ht]
  · simp [resolveServiceNowTemplate, h2]
  · have hk : pyFalsyStr (some "api-key") = false := rfl
    simp [uwaStartup, hk, ht]

/-- Witness for c8_amended_template_resolution at concrete inputs. -/
theorem c8_amended_template_resolution_witness :
    ((configureApprovalServiceNow (.jstr "service-now") true false true 2 none
        "tid-123").getD "service_config" .jnull).get "template" =
      some (.jstr (resolveServiceNowTemplate none "tid-123")) ∧
    resolveServiceNowTemplate none "tid-123" = "tid-123" ∧
    resolveServiceNowTemplate (some "env-tid") "tid-123" = (some "env-tid").getD "" ∧
    uwaStartup (some "api-key") none =
      .error "SERVICENOW_TEMPLATE_SYS_ID not found in environment variables" :=
  c8_amended_template_resolution (.jstr "service-now") true false true 2 none (some "env-tid")
    "tid-123" rfl rfl

/-! ## Claim C9: lowercasing of identifiers -/

/-- Claim C9 counterexample: the environment URL built by
update_workflow_approvals embeds the keys exactly as supplied; for
mixed-case keys it differs from the URL built from the lowercased keys, so
not every Resource Client operation lowercases. -/
theorem c9_counterexample :
    uwaEnvironmentUrl "Proj" "ENV" =
      "https://app.launchdarkly.com/api/v2/projects/Proj/environments/ENV" ∧
    uwaEnvironmentUrl "Proj" "ENV" ≠
      BASE_URL ++ "/projects/" ++ pyLower "Proj" ++ "/environments/" ++ pyLower "ENV" := by
  exact ⟨rfl, by decide⟩

/-- Claim C9 (amended): every URL built by ld_project_setup depends on the
keys only through their lowercasing (two spellings with the same lowercase
form give the same request URL), while update_workflow_approvals uses the
keys verbatim. -/
theorem c9_amended_lowercasing (pk pk2 ek ek2 : String)
    (hp : pyLower pk = pyLower pk2) (he : pyLower ek = pyLower ek2) :
    projectUrl pk = projectUrl pk2 ∧
    environmentsUrl pk = environmentsUrl pk2 ∧
    environmentUrl pk ek = environmentUrl pk2 ek2 ∧
    uwaEnvironmentUrl "Proj" "Env" ≠ uwaEnvironmentUrl (pyLower "Proj") (pyLower "Env") := by
  refine ⟨?_, ?_, ?_, ?_⟩
  · simp [projectUrl, hp]
  · simp [environmentsUrl, hp]
  · simp [environmentUrl, hp, he]
  · decide

/-- Witness for c9_amended_lowercasing at concrete inputs. -/
theorem c9_amended_lowercasing_witness :
    projectUrl "PROD-App" = projectUrl "prod-app" ∧
    environmentsUrl "PROD-App" = environmentsUrl "prod-app" ∧
    environmentUrl "PROD-App" "Staging" = environmentUrl "prod-app" "staging" ∧
    uwaEnvironmentUrl "Proj" "Env" ≠ uwaEnvironmentUrl (pyLower "Proj") (pyLower "Env") :=
  c9_amended_lowercasing "PROD-App" "prod-app" "Staging" "staging" rfl rfl

/-! ## Claim C10: get_project converts every failure to None -/

/-- Claim C10 (confirmed): get_project returns None for a 404 response, for
every other non-2xx status and for a raised transport error alike — the
except handler converts every raised error to None, so nothing propagates
and the caller cannot distinguish an absent project from a failed read. -/
theorem c10_get_project_swallows_errors (pk : String) (r : HttpResult) (status : Nat)
    (body : Option JVal) (m : String) (hs : 400 ≤ status) (hs2 : status < 600) :
    get_project pk (.response status body) = none ∧
    get_project pk (.netError m) = none ∧
    get_project pk (.response 404 body) = none ∧
    (∀ e, getProjectTry pk r = .error e → get_project pk r = none) := by
  refine ⟨?_, rfl, rfl, ?_⟩
  · have hcond : 400 ≤ status ∧ status < 600 := ⟨hs, hs2⟩
    cases h4 : status == 404 <;>
      simp [get_project, getProjectTry, handle_response, h4, hcond]
  · intro e he
    simp [get_project, he]

/-- Witness for c10_get_project_swallows_errors: a 500 response, a transport
error and a 404 all yield None. -/
theorem c10_get_project_swallows_errors_witness :
    get_project "demo" (.response 500 (some (.jobj []))) = none ∧
    get_project "demo" (.netError "connection reset") = none ∧
    get_project "demo" (.response 404 (some (.jobj []))) = none ∧
    (∀ e, getProjectTry "demo" (.response 500 (some (.jobj []))) = .error e →
      get_project "demo" (.response 500 (some (.jobj []))) = none) :=
  c10_get_project_swallows_errors "demo" (.response 500 (some (.jobj []))) 500
    (some (.jobj [])) "connection reset" (by decide) (by decide)
